import Mathlib

/-!
# SmearData (source/smeardeformer/SmearData.h)

A shallow embedding of the `SmearData` configuration record of the smear
deformer: its eight data members, its empty destructor, the operations the
language gives on a live instance, and its four-argument constructor.  The header only declares the constructor; its
body and the host SDK (`c4d.h`) are not part of the source, so the host
container interface is taken as a parameter and the constructor is modelled
from the specification.
-/

namespace SmearDeformer

/-! ## Host types (declared in `c4d.h`, used here as pointee tags only) -/

/-- Pointee tag for the host document type `BaseDocument`. -/
inductive BaseDocument : Type

/-- Pointee tag for the host scene-object type `BaseObject`. -/
inductive BaseObject : Type

/-- Pointee tag for the host polygon-mesh type `PolygonObject`. -/
inductive PolygonObject : Type

/-- Pointee tag for the host spline-curve type `SplineData`. -/
inductive SplineData : Type

/-- Pointee tag for the host parameter-container type `BaseContainer`. -/
inductive BaseContainer : Type

/-- A raw C++ pointer `T*`: an address, with address `0` the null pointer. -/
structure Ptr (α : Type) where
  addr : Nat

/-- A raw C++ pointer to const, `const T*`: an address through which the
pointee is only read. -/
structure ConstPtr (α : Type) where
  addr : Nat

instance instDecidableEqPtr {α : Type} : DecidableEq (Ptr α) := fun a b =>
  match a, b with
  | ⟨x⟩, ⟨y⟩ =>
    if h : x = y then isTrue (congrArg Ptr.mk h)
    else isFalse (fun e => h (congrArg Ptr.addr e))

instance instDecidableEqConstPtr {α : Type} : DecidableEq (ConstPtr α) := fun a b =>
  match a, b with
  | ⟨x⟩, ⟨y⟩ =>
    if h : x = y then isTrue (congrArg ConstPtr.mk h)
    else isFalse (fun e => h (congrArg ConstPtr.addr e))

/-- The null pointer `nullptr` of type `T*`. -/
def Ptr.null {α : Type} : Ptr α := ⟨0⟩

/-- The null pointer `nullptr` of type `const T*`. -/
def ConstPtr.null {α : Type} : ConstPtr α := ⟨0⟩

/-- The host scalar type `Float` (a 64-bit floating-point number), held as
its bit pattern.  The record only stores the value; no arithmetic is done
on it. -/
structure Float where
  bits : Fin (2 ^ 64)
  deriving DecidableEq

/-! ## The record -/

/-- The `SmearData` struct: the data members of lines 21-30 of the header,
in declaration order. -/
structure SmearData where
  doc : Ptr BaseDocument
  mod : Ptr BaseObject
  dest : Ptr PolygonObject
  interactive : Bool
  strength : Float
  inverted : Bool
  weight_spline : ConstPtr SplineData
  ease_spline : ConstPtr SplineData
  deriving DecidableEq

/-- The eight member types of `SmearData`, in declaration order. -/
abbrev SmearTuple : Type :=
  Ptr BaseDocument × Ptr BaseObject × Ptr PolygonObject × Bool × Float × Bool ×
    ConstPtr SplineData × ConstPtr SplineData

/-- The members of a record, listed in declaration order. -/
def SmearData.toTuple (s : SmearData) : SmearTuple :=
  (s.doc, s.mod, s.dest, s.interactive, s.strength, s.inverted, s.weight_spline, s.ease_spline)

/-- The record whose members are the components of the tuple. -/
def SmearData.ofTuple (t : SmearTuple) : SmearData :=
  { doc := t.1
    mod := t.2.1
    dest := t.2.2.1
    interactive := t.2.2.2.1
    strength := t.2.2.2.2.1
    inverted := t.2.2.2.2.2.1
    weight_spline := t.2.2.2.2.2.2.1
    ease_spline := t.2.2.2.2.2.2.2 }

/-! ## The destructor -/

/-- The part of the host application's state a `SmearData` can refer to: for
every address, the state of the object allocated there (`none` when nothing
is allocated, or the object has been released). -/
structure HostState where
  objects : Nat → Option Nat

/-- The destructor `~SmearData() { }` as a transition of the host state.  Its
body is empty, and every member is a raw pointer, a `Bool` or a `Float`,
whose destruction does nothing: no object is written or released. -/
def SmearData.destroy (_s : SmearData) (h : HostState) : HostState := h

/-! ## Operations on a live instance -/

/-- The eight data members of `SmearData` (lines 21-30 of the header), by
name. -/
inductive Field where
  | doc
  | mod
  | dest
  | interactive
  | strength
  | inverted
  | weight_spline
  | ease_spline
  deriving DecidableEq

/-- The declared type of a member. -/
@[reducible] def Field.type : Field → Type
  | .doc => Ptr BaseDocument
  | .mod => Ptr BaseObject
  | .dest => Ptr PolygonObject
  | .interactive => Bool
  | .strength => Float
  | .inverted => Bool
  | .weight_spline => ConstPtr SplineData
  | .ease_spline => ConstPtr SplineData

/-- The member read `s.f`. -/
def SmearData.get (s : SmearData) : (f : Field) → f.type
  | .doc => s.doc
  | .mod => s.mod
  | .dest => s.dest
  | .interactive => s.interactive
  | .strength => s.strength
  | .inverted => s.inverted
  | .weight_spline => s.weight_spline
  | .ease_spline => s.ease_spline

/-- The member write `s.f = v`. -/
def SmearData.set (s : SmearData) : (f : Field) → f.type → SmearData
  | .doc, v => { s with doc := v }
  | .mod, v => { s with mod := v }
  | .dest, v => { s with dest := v }
  | .interactive, v => { s with interactive := v }
  | .strength, v => { s with strength := v }
  | .inverted, v => { s with inverted := v }
  | .weight_spline, v => { s with weight_spline := v }
  | .ease_spline, v => { s with ease_spline := v }

/-- The operations C++ gives on an existing `SmearData` object, as the header
declares it.  The members of lines 21-30 are public (the type is a `struct`
with no access specifier) and none is `const`, so each can be assigned; the
header declares no `operator=`, so the implicitly declared memberwise copy
assignment exists; and line 19 declares the destructor.  The constructor of
line 17 creates an object and is not an operation on an existing one. -/
inductive Operation where
  | copyAssign (src : SmearData)
  | write (f : Field) (v : f.type)
  | destructor

/-- The state of the storage of one `SmearData` object: within its lifetime
it holds the eight members; the destructor ends the lifetime; an operation
on an object whose lifetime has ended is undefined. -/
inductive ObjectState where
  | live (s : SmearData)
  | ended
  | undefined
  deriving DecidableEq

/-- One operation on an object.  Copy assignment replaces every member by
that of `src`, a member write replaces that member, and the destructor (body
`{ }`) only ends the lifetime. -/
def Operation.apply (o : Operation) : ObjectState → ObjectState
  | .live s =>
    match o with
    | .copyAssign src => .live src
    | .write f v => .live (s.set f v)
    | .destructor => .ended
  | .ended => .undefined
  | .undefined => .undefined

/-- The state of an object with members `s` after a sequence of operations,
applied in order. -/
def Operation.run (ops : List Operation) (s : SmearData) : ObjectState :=
  ops.foldl (fun st o => o.apply st) (.live s)

/-- Whether an operation assigns the member `f`. -/
def Operation.writes (o : Operation) (f : Field) : Bool :=
  match o with
  | .copyAssign _ => true
  | .write g _ => decide (g = f)
  | .destructor => false

/-- A record, as an object under operation in the examples. -/
def exampleData : SmearData :=
  { doc := ⟨10⟩, mod := ⟨11⟩, dest := ⟨12⟩, interactive := true,
    strength := ⟨4607182418800017408⟩, inverted := false,
    weight_spline := ⟨40⟩, ease_spline := ⟨41⟩ }

/-- A second record, differing from `exampleData` in every member. -/
def exampleOther : SmearData :=
  { doc := ⟨20⟩, mod := ⟨21⟩, dest := ⟨22⟩, interactive := false,
    strength := ⟨0⟩, inverted := true,
    weight_spline := ⟨50⟩, ease_spline := ⟨51⟩ }

/-! ## The constructor -/

/-- The read interface of the host parameter container (`c4d.h` is not part
of the source): what the host returns when a boolean, a floating-point value
or a spline is read from the container at `bc` under an identifier. -/
structure ContainerApi where
  readBool : ConstPtr BaseContainer → Int → Bool
  readFloat : ConstPtr BaseContainer → Int → Float
  readSpline : ConstPtr BaseContainer → Int → ConstPtr SplineData

/-- Modelled from the spec: the identifiers under which the five configured
parameters are stored in the parameter container.  The resource constants
are not part of the source, so they are a parameter of the constructor. -/
structure SmearParamIds where
  interactive : Int
  strength : Int
  inverted : Int
  weight_spline : Int
  ease_spline : Int

/-- Modelled from the spec: the body of the constructor
`SmearData(const BaseContainer* bc, BaseDocument* doc, BaseObject* mod, PolygonObject* dest)`,
which the header only declares.  Following the specification, it "populates
all fields": the document, the modifier and the destination mesh are the
arguments, and the remaining five members are read from the parameter
container.  The result type is the one the declaration gives: a `SmearData`,
with no error value beside it. -/
def SmearData.SmearData (api : ContainerApi) (ids : SmearParamIds)
    (bc : ConstPtr BaseContainer) (doc : Ptr BaseDocument) (mod : Ptr BaseObject)
    (dest : Ptr PolygonObject) : SmearData :=
  { doc := doc
    mod := mod
    dest := dest
    interactive := api.readBool bc ids.interactive
    strength := api.readFloat bc ids.strength
    inverted := api.readBool bc ids.inverted
    weight_spline := api.readSpline bc ids.weight_spline
    ease_spline := api.readSpline bc ids.ease_spline }

/-! ## Theorems -/

/-- C2: a `SmearData` value is determined by, and is in bijection with, the
8-tuple of its members (document, modifier and mesh pointers, a boolean, a
floating-point scalar, a boolean, and two pointers to const splines): the
record has exactly these eight fields and no others. -/
theorem smearData_bijective_tuple :
    Function.Bijective SmearData.toTuple ∧
      (∀ s : SmearData, SmearData.ofTuple s.toTuple = s) ∧
      (∀ t : SmearTuple, (SmearData.ofTuple t).toTuple = t) := by
  have hl : ∀ s : SmearData, SmearData.ofTuple s.toTuple = s := fun s => rfl
  have hr : ∀ t : SmearTuple, (SmearData.ofTuple t).toTuple = t := fun t => rfl
  refine ⟨⟨?_, ?_⟩, hl, hr⟩
  · intro a b hab
    rw [← hl a, ← hl b, hab]
  · intro t
    exact ⟨SmearData.ofTuple t, hr t⟩

/-- C1: the record built by the constructor from `bc`, `doc`, `mod` and
`dest` has all eight members populated: `doc`, `mod` and `dest` are exactly
the arguments, and `interactive`, `strength`, `inverted`, `weight_spline`
and `ease_spline` are the values the host reads from `bc`. -/
theorem smearData_ctor_populates (api : ContainerApi) (ids : SmearParamIds)
    (bc : ConstPtr BaseContainer) (doc : Ptr BaseDocument) (mod : Ptr BaseObject)
    (dest : Ptr PolygonObject) :
    (SmearData.SmearData api ids bc doc mod dest).doc = doc ∧
      (SmearData.SmearData api ids bc doc mod dest).mod = mod ∧
      (SmearData.SmearData api ids bc doc mod dest).dest = dest ∧
      (SmearData.SmearData api ids bc doc mod dest).interactive =
        api.readBool bc ids.interactive ∧
      (SmearData.SmearData api ids bc doc mod dest).strength =
        api.readFloat bc ids.strength ∧
      (SmearData.SmearData api ids bc doc mod dest).inverted =
        api.readBool bc ids.inverted ∧
      (SmearData.SmearData api ids bc doc mod dest).weight_spline =
        api.readSpline bc ids.weight_spline ∧
      (SmearData.SmearData api ids bc doc mod dest).ease_spline =
        api.readSpline bc ids.ease_spline :=
  ⟨rfl, rfl, rfl, rfl, rfl, rfl, rfl, rfl⟩

/-- C5: destroying a `SmearData` is the identity on the host state: the
objects at the addresses of its document, modifier, mesh and spline
references are unchanged, and none of them is released. -/
theorem smearData_destroy_frame (s : SmearData) (h : HostState) :
    s.destroy h = h ∧
      (s.destroy h).objects s.doc.addr = h.objects s.doc.addr ∧
      (s.destroy h).objects s.mod.addr = h.objects s.mod.addr ∧
      (s.destroy h).objects s.dest.addr = h.objects s.dest.addr ∧
      (s.destroy h).objects s.weight_spline.addr = h.objects s.weight_spline.addr ∧
      (s.destroy h).objects s.ease_spline.addr = h.objects s.ease_spline.addr :=
  ⟨rfl, rfl, rfl, rfl, rfl, rfl⟩

/-- A member keeps its value under a write to a different member. -/
theorem smearData_get_set_of_ne (s : SmearData) (f g : Field) (v : g.type) (h : g ≠ f) :
    (s.set g v).get f = s.get f := by
  cases f <;> cases g <;> first | rfl | exact absurd rfl h

/-- Once the state is undefined, no sequence of operations makes the object
live again. -/
theorem operation_foldl_undefined (ops : List Operation) (s : SmearData) :
    ops.foldl (fun st o => o.apply st) ObjectState.undefined ≠ ObjectState.live s := by
  induction ops with
  | nil => intro h; cases h
  | cons o rest ih => exact ih

/-- Once the lifetime has ended, no sequence of operations makes the object
live again. -/
theorem operation_foldl_ended (ops : List Operation) (s : SmearData) :
    ops.foldl (fun st o => o.apply st) ObjectState.ended ≠ ObjectState.live s := by
  cases ops with
  | nil => intro h; cases h
  | cons o rest => exact operation_foldl_undefined rest s

/-- C6, as stated, fails: on a live record, the implicitly declared copy
assignment replaces all eight members, and a write to the public member
`doc` replaces `doc`; the members do not keep their construction values. -/
theorem smearData_fields_mutable_counterexample :
    Operation.run [Operation.copyAssign exampleOther] exampleData = ObjectState.live exampleOther ∧
      exampleOther.doc ≠ exampleData.doc ∧
      exampleOther.mod ≠ exampleData.mod ∧
      exampleOther.dest ≠ exampleData.dest ∧
      exampleOther.interactive ≠ exampleData.interactive ∧
      exampleOther.strength ≠ exampleData.strength ∧
      exampleOther.inverted ≠ exampleData.inverted ∧
      exampleOther.weight_spline ≠ exampleData.weight_spline ∧
      exampleOther.ease_spline ≠ exampleData.ease_spline ∧
      Operation.run [Operation.write Field.doc (⟨99⟩ : Ptr BaseDocument)] exampleData =
        ObjectState.live { exampleData with doc := ⟨99⟩ } ∧
      (⟨99⟩ : Ptr BaseDocument) ≠ exampleData.doc := by
  decide

/-- C6, amended: through every sequence of operations that leaves the object
live and contains neither a copy assignment nor a write to the member `f`,
the member `f` keeps the value it had at construction. -/
theorem smearData_field_kept (f : Field) (ops : List Operation) (s s' : SmearData)
    (hrun : Operation.run ops s = ObjectState.live s')
    (hops : ∀ o ∈ ops, o.writes f = false) :
    s'.get f = s.get f := by
  unfold Operation.run at hrun
  induction ops generalizing s with
  | nil =>
    simp only [List.foldl_nil] at hrun
    cases hrun
    rfl
  | cons o rest ih =>
    have ho : o.writes f = false := hops o (List.mem_cons_self o rest)
    have hrest : ∀ o ∈ rest, o.writes f = false :=
      fun q hq => hops q (List.mem_cons_of_mem o hq)
    rw [List.foldl_cons] at hrun
    cases o with
    | copyAssign src => simp [Operation.writes] at ho
    | write g v =>
      have hne : g ≠ f := by simpa [Operation.writes] using ho
      have hstep := ih (s.set g v) hrun hrest
      rw [hstep, smearData_get_set_of_ne s f g v hne]
    | destructor => exact absurd hrun (operation_foldl_ended rest s')

/-- Witness for C6, amended: writes to `doc` and `inverted` leave `strength`
at its construction value. -/
theorem smearData_field_kept_witness :
    Operation.run
        [Operation.write Field.doc (⟨99⟩ : Ptr BaseDocument), Operation.write Field.inverted true]
        exampleData =
      ObjectState.live { exampleData with doc := ⟨99⟩, inverted := true } ∧
      ({ exampleData with doc := ⟨99⟩, inverted := true } : SmearData).get Field.strength =
        exampleData.get Field.strength :=
  ⟨by decide,
    smearData_field_kept Field.strength
      [Operation.write Field.doc (⟨99⟩ : Ptr BaseDocument), Operation.write Field.inverted true]
      exampleData { exampleData with doc := ⟨99⟩, inverted := true } (by decide)
      (by intro o ho; simp at ho; rcases ho with rfl | rfl <;> rfl)⟩

end SmearDeformer
